import Mathlib

/-!
Verification of the LogeTogo API request-lifecycle and plugin-composition
layer (apps/api/src/server.ts, plugins/security.ts, plugins/prisma.ts,
routes/index.ts, routes/system.ts), as a shallow embedding in Lean 4.

JavaScript strings become Lean `String`; absent values (`undefined`/`null`)
become `Option`; JavaScript truthiness of a string (`s ||`, `if (s)`)
is modelled explicitly: `none` and `some ""` are falsy.  Handlers become
pure functions of an explicit request/database state.
-/

namespace LogeTogo

/-- `NODE_ENV === 'development'` (security.ts line 27, server.ts line 18). -/
def isDevMode (mode : String) : Bool := mode == "development"

/-- `NODE_ENV === 'production'` (security.ts line 28). -/
def isProdMode (mode : String) : Bool := mode == "production"

/-- JavaScript `x || y` for a possibly-absent string `x`:
`undefined` and `""` are falsy, any other string is truthy. -/
def jsOrStr (x : Option String) (y : String) : String :=
  match x with
  | some s => if s == "" then y else s
  | none => y

/-- A possibly-absent string is JS-truthy: present and non-empty. -/
def strTruthy (x : Option String) : Bool :=
  match x with
  | some s => !(s == "")
  | none => false

/-! ## Server construction (server.ts, `createServer`)

The plugins that exist in the repository. -/

inductive Plugin
  | prisma
  | security
  | swagger
  | routes
  deriving DecidableEq, Repr

/-- What `createServer` (server.ts lines 74-302) sets up before returning:
the plugins it registers via `server.register`, in registration order,
and whether the global handlers are installed.  The body registers
`prismaPlugin` (line 90) only; it then declares the inline `/health` and
`/` routes, `setNotFoundHandler` (line 201) and `setErrorHandler`
(line 229).  No other `server.register` call occurs in `createServer`. -/
structure ServerSetup where
  registeredPlugins : List Plugin
  notFoundHandlerInstalled : Bool
  errorHandlerInstalled : Bool
  deriving DecidableEq, Repr

/-- The setup `createServer` performs, read off the source line by line. -/
def createServerSetup : ServerSetup :=
  { registeredPlugins := [Plugin.prisma]
  , notFoundHandlerInstalled := true
  , errorHandlerInstalled := true }

/-! ## Rate limiter key (security.ts lines 156-161, `keyGenerator`) -/

/-- `request.headers['x-forwarded-for'] || request.headers['x-real-ip'] || request.ip`. -/
def keyGenerator (xForwardedFor xRealIp : Option String) (ip : String) : String :=
  jsOrStr xForwardedFor (jsOrStr xRealIp ip)

/-! ## Security plugin configuration (security.ts) -/

/-- CORS `origin` option: `true` (all origins) in dev, else an allow-list. -/
inductive CorsOrigin
  | allOrigins
  | allowList (origins : List String)
  deriving DecidableEq, Repr

/-- security.ts lines 41-48: `origin: isDev ? true : [ ...four https origins ]`. -/
def corsOrigin (mode : String) : CorsOrigin :=
  if isDevMode mode then CorsOrigin.allOrigins
  else CorsOrigin.allowList
    [ "https://logetogo.tg"
    , "https://www.logetogo.tg"
    , "https://admin.logetogo.tg"
    , "https://app.logetogo.tg" ]

/-- security.ts line 152: `max: isDev ? 1000 : 100`. -/
def rateLimitMax (mode : String) : Nat :=
  if isDevMode mode then 1000 else 100

/-- security.ts lines 127-131: `hsts: isProd ? \x7b maxAge... \x7d : false`.
`true` exactly when the strict-transport-security header is enabled. -/
def hstsEnabled (mode : String) : Bool :=
  isProdMode mode

/-- security.ts lines 217-223: `secret: process.env.JWT_SECRET || (() => ...)()`.
The fallback closure throws in production and otherwise warns and returns
the development default.  `Except.error` models the thrown startup error;
the `Bool` records whether the default-secret warning was logged. -/
def jwtSecret (mode : String) (envSecret : Option String) : Except String (String × Bool) :=
  if strTruthy envSecret then Except.ok (envSecret.getD "", false)
  else if isProdMode mode then Except.error "JWT_SECRET est obligatoire en production !"
  else Except.ok ("dev-jwt-secret-32-chars-minimum-change", true)

/-! ## JWT token extraction (security.ts lines 238-261, `extractToken`)

Inputs: the `Authorization` header, the (unsigned) `authToken` cookie, and
the `token` query parameter — each possibly absent.  The result pairs the
extracted token (`none` models the JS `null` return) with whether the
query-parameter warning was logged. -/

/-- security.ts lines 252-258: only `isDev` reaches the query parameter,
and a string-typed `token` query value is returned with a warning log. -/
def extractFromQuery (isDev : Bool) (queryToken : Option String) : Option String × Bool :=
  match queryToken with
  | some q => if isDev then (some q, true) else (none, false)
  | none => (none, false)

/-- security.ts lines 246-249: `if (cookies?.authToken) return cookies.authToken`
(JS truthiness: an empty cookie value falls through to the query step). -/
def extractFromCookie (isDev : Bool) (cookieAuthToken queryToken : Option String) :
    Option String × Bool :=
  if strTruthy cookieAuthToken then (cookieAuthToken, false)
  else extractFromQuery isDev queryToken

/-- security.ts lines 239-243: the `Authorization` header wins when it
starts with `Bearer `, yielding `authHeader.substring(7)`. -/
def extractToken (isDev : Bool) (authHeader cookieAuthToken queryToken : Option String) :
    Option String × Bool :=
  match authHeader with
  | some h =>
    if h.startsWith "Bearer " then (some (h.drop 7), false)
    else extractFromCookie isDev cookieAuthToken queryToken
  | none => extractFromCookie isDev cookieAuthToken queryToken

/-! ## Authenticate decorator (security.ts lines 278-296) -/

/-- The per-request data the decorator logs on failure. -/
structure Request where
  ip : String
  method : String
  url : String
  deriving DecidableEq, Repr

/-- Result of `request.jwtVerify()`: success, or a failure (absent,
malformed, bad signature/issuer/audience, or expired token) carrying the
error message. -/
inductive VerifyOutcome
  | ok
  | failed (errMessage : String)
  deriving DecidableEq, Repr

/-- A structured log line, as emitted by `fastify.log.warn`/`error`. -/
structure LogLine where
  level : String
  errMessage : Option String
  method : Option String
  url : Option String
  ip : Option String
  deriving DecidableEq, Repr

/-- The JSON body of an HTTP response, restricted to the fields the
claims mention. -/
structure ResponseBody where
  errorField : Option String
  messageField : Option String
  codeField : Option String
  deriving DecidableEq, Repr

structure Response where
  status : Nat
  body : ResponseBody
  deriving DecidableEq, Repr

/-- The `authenticate` decorator: `try await request.jwtVerify() catch`
log a warning with the error message, url, method and ip, then send
`401 \x7b error, message, code: UNAUTHORIZED \x7d`.  Returns the reply it
sent (if any) and the log lines it emitted; a sent reply short-circuits
the route (Fastify skips the handler once a hook has sent the reply). -/
def authenticate (verify : VerifyOutcome) (req : Request) :
    Option Response × List LogLine :=
  match verify with
  | VerifyOutcome.ok => (none, [])
  | VerifyOutcome.failed msg =>
    ( some
        { status := 401
        , body :=
          { errorField := some "Non autorisé"
          , messageField := some "Token manquant ou invalide"
          , codeField := some "UNAUTHORIZED" } }
    , [ { level := "warn"
        , errMessage := some msg
        , method := some req.method
        , url := some req.url
        , ip := some req.ip } ] )

/-- Running a route guarded by the `authenticate` decorator as a
pre-handler over a handler with side effects on a state `σ`:
if the decorator sent a reply, the handler body never runs and the state
is unchanged; otherwise the handler produces the reply and the new state. -/
def runGuardedRoute {σ : Type} (verify : VerifyOutcome) (req : Request)
    (handler : σ → Response × σ) (s : σ) : Response × σ × List LogLine :=
  match authenticate verify req with
  | (some resp, logs) => (resp, s, logs)
  | (none, logs) =>
    let hr := handler s
    (hr.1, hr.2, logs)

/-! ## Global error handler (server.ts lines 229-283, `setErrorHandler`) -/

/-- A raised failure as the handler sees it: `Error & statusCode?`. -/
structure RaisedError where
  name : String
  message : String
  statusCode : Option Nat
  stack : Option String
  deriving DecidableEq, Repr

/-- A log emitted by the error handler: its level and the stack it
carries (`none` when no stack field is logged). -/
structure ErrorLog where
  level : String
  stack : Option String
  deriving DecidableEq, Repr

/-- The error handler's observable output: HTTP status, the `message`
field of the response, and the log it emitted.
server.ts: `statusCode = error.statusCode ?? 500`; `statusCode >= 500`
logs at error level with `stack: error.stack`, otherwise warn without a
stack; `safeMessage = IS_DEV || statusCode < 500 ? error.message :
'Une erreur interne est survenue'`; replies `reply.code(statusCode)`. -/
def errorHandler (isDev : Bool) (e : RaisedError) : Nat × String × ErrorLog :=
  let statusCode := e.statusCode.getD 500
  let log : ErrorLog :=
    if statusCode ≥ 500 then { level := "error", stack := e.stack }
    else { level := "warn", stack := none }
  let safeMessage :=
    if isDev || statusCode < 500 then e.message
    else "Une erreur interne est survenue"
  (statusCode, safeMessage, log)

/-! ## Not-found handler (server.ts lines 201-226, `setNotFoundHandler`) -/

/-- The 404 response body.  `timestamp` is the clock value the handler
read; `availableRoutes` (with the `suggestion` aid) is spread in only
when `IS_DEV`. -/
structure NotFoundBody where
  errorField : String
  messageField : String
  statusCode : Nat
  timestamp : String
  availableRoutes : Option (List String)
  deriving DecidableEq, Repr

/-- `Route $\x7bmethod\x7d $\x7burl\x7d non trouvée`. -/
def notFoundMessage (method url : String) : String :=
  "Route " ++ method ++ " " ++ url ++ " non trouvée"

/-- The not-found handler: `reply.code(404).send(responseBody)`. -/
def notFoundHandler (isDev : Bool) (req : Request) (now : String) :
    Nat × NotFoundBody :=
  ( 404
  , { errorField := "Not Found"
    , messageField := notFoundMessage req.method req.url
    , statusCode := 404
    , timestamp := now
    , availableRoutes := if isDev then some ["GET /", "GET /health"] else none } )

/-! ## Health endpoints (routes/system.ts lines 17-103 and server.ts
lines 93-152) -/

/-- The persistence collaborator's state: whether queries currently
succeed, and how many `healthCheck` rows the store holds. -/
structure DbState where
  ok : Bool
  healthChecks : Nat
  deriving DecidableEq, Repr

/-- A health response, restricted to the claimed fields. -/
structure HealthResponse where
  status : String
  httpStatus : Nat
  databaseService : Option String
  deriving DecidableEq, Repr

/-- routes/system.ts `GET /health` handler: probes the database
(`SELECT 1`) and creates a `healthCheck` row; on any database error it
sets `dbStatus = 'disconnected'` and logs; the overall status is
`healthy` iff the database is connected; the reply code is never set,
so Fastify answers 200. -/
def systemHealthHandler (db : DbState) : HealthResponse × DbState :=
  if db.ok then
    ( { status := "healthy", httpStatus := 200, databaseService := some "connected" }
    , { db with healthChecks := db.healthChecks + 1 } )
  else
    ( { status := "degraded", httpStatus := 200, databaseService := some "disconnected" }
    , db )

/-- server.ts `GET /health` handler (lines 136-152): reads memory and the
clock only — no database access — and always returns `status: 'healthy'`
with the default 200 code. -/
def rootHealthHandler (db : DbState) : HealthResponse × DbState :=
  ( { status := "healthy", httpStatus := 200, databaseService := none }, db )

/-! ## Startup and shutdown (server.ts lines 307-405, `startServer`) -/

/-- What happens after a termination signal is delivered to the handler
installed in `startServer`: `server.close()` resolves within the 10 s
drain deadline, `server.close()` rejects, or the deadline timer fires
first. -/
inductive ShutdownOutcome
  | closedInTime
  | closeFailed
  | deadlineExceeded
  deriving DecidableEq, Repr

/-- The observable fate of the process: the exit status (`none` while
still running) and whether the server is left accepting traffic. -/
structure ProcessFate where
  exitStatus : Option Nat
  acceptingTraffic : Bool
  deriving DecidableEq, Repr

/-- `startServer`: if any setup step (`createServer` or `listen`) raises,
the catch block closes the server if it exists and calls
`process.exit(1)`.  Otherwise the server runs until a termination signal
arrives (`shutdown = none` models no signal yet); the signal handler arms
a 10 s timer that calls `process.exit(1)`, awaits `server.close()`, then
exits 0 on success and 1 if `close` rejected. -/
def startServerFate (startupOk : Bool) (shutdown : Option ShutdownOutcome) :
    ProcessFate :=
  if !startupOk then { exitStatus := some 1, acceptingTraffic := false }
  else
    match shutdown with
    | none => { exitStatus := none, acceptingTraffic := true }
    | some ShutdownOutcome.closedInTime =>
      { exitStatus := some 0, acceptingTraffic := false }
    | some ShutdownOutcome.closeFailed =>
      { exitStatus := some 1, acceptingTraffic := false }
    | some ShutdownOutcome.deadlineExceeded =>
      { exitStatus := some 1, acceptingTraffic := false }

/-- The extraction cascade exactly as claim C7 words it: the
`Authorization` header when it starts with `Bearer ` (taking the
remainder), otherwise the `authToken` cookie value when it yields a
token, otherwise — only in development mode — the `token` query
parameter with a warning logged, and otherwise nothing. -/
def extractTokenClaim (isDev : Bool) (authHeader cookieAuthToken queryToken : Option String) :
    Option String × Bool :=
  if (authHeader.getD "").startsWith "Bearer " then
    (some ((authHeader.getD "").drop 7), false)
  else if strTruthy cookieAuthToken then
    (cookieAuthToken, false)
  else if isDev = true ∧ queryToken.isSome then
    (queryToken, true)
  else
    (none, false)

/-- The exit-status rule exactly as claim C9 words it, at one scenario:
status 0 iff shutdown completed gracefully (server closed before the
drain deadline after a termination signal), status 1 iff startup failed
or the drain deadline was exceeded. -/
def exitCodesAsClaimed (startupOk : Bool) (shutdown : Option ShutdownOutcome) : Prop :=
  ((startServerFate startupOk shutdown).exitStatus = some 0 ↔
    (startupOk = true ∧ shutdown = some ShutdownOutcome.closedInTime)) ∧
  ((startServerFate startupOk shutdown).exitStatus = some 1 ↔
    (startupOk = false ∨
      (startupOk = true ∧ shutdown = some ShutdownOutcome.deadlineExceeded)))

/-! ## Claims -/

/-- C1: evaluation of `createServer` at its only input.  The claim says
it registers the security middleware stack, documentation publisher,
route registrar and persistence connector in dependency order; in the
source it registers only the prisma (persistence) plugin, so the
security, swagger and routes plugins are never part of the request
pipeline — even though the repository's own `tests/server.test.ts`
asserts `hasPlugin('security')` and `hasPlugin('swagger')`. -/
theorem claim1_createServer_omits_security_stack :
    createServerSetup.registeredPlugins = [Plugin.prisma] ∧
    Plugin.security ∉ createServerSetup.registeredPlugins ∧
    Plugin.swagger ∉ createServerSetup.registeredPlugins ∧
    Plugin.routes ∉ createServerSetup.registeredPlugins ∧
    createServerSetup.notFoundHandlerInstalled = true ∧
    createServerSetup.errorHandlerInstalled = true := by
  decide

/-- C2 counterexample: on the root `GET /health` endpoint a failed
database condition does not yield status `degraded` — the handler never
probes the database and answers `healthy` regardless. -/
theorem claim2_root_health_not_degraded :
    ¬ (rootHealthHandler { ok := false, healthChecks := 0 }).1.status = "degraded" := by
  decide

/-- C2 amended: the namespaced `GET /api/system/health` handler returns
status `degraded` with HTTP 200 (never 5xx) when the database probe
fails and `healthy` when it succeeds; the root `GET /health` handler
performs no database probe and always returns `healthy` with HTTP 200
regardless of database state. -/
theorem claim2_health_status_amended (db : DbState) :
    (db.ok = false → (systemHealthHandler db).1.status = "degraded") ∧
    (db.ok = true → (systemHealthHandler db).1.status = "healthy") ∧
    (systemHealthHandler db).1.httpStatus = 200 ∧
    (rootHealthHandler db).1.status = "healthy" ∧
    (rootHealthHandler db).1.httpStatus = 200 ∧
    (rootHealthHandler db).2 = db := by
  cases db with
  | mk ok n => cases ok <;> simp [systemHealthHandler, rootHealthHandler]

/-- C2 amended, witnessed at a database-down state. -/
theorem claim2_health_status_amended_witness :
    (systemHealthHandler { ok := false, healthChecks := 3 }).1.status = "degraded" :=
  (claim2_health_status_amended { ok := false, healthChecks := 3 }).1 rfl

/-- C3: when token verification fails (absent, invalid or expired
token), the `authenticate` decorator sends exactly the structured 401
with code `UNAUTHORIZED`, logs a warning carrying the error message,
method, url and client ip, and the guarded handler never runs: the
state is returned unchanged, so no handler side effect (e.g. a database
write) occurs — nothing is thrown past the request boundary. -/
theorem claim3_authenticate_failure_shortcircuits {σ : Type} (msg : String) (req : Request)
    (handler : σ → Response × σ) (s : σ) :
    runGuardedRoute (VerifyOutcome.failed msg) req handler s =
      ( { status := 401
        , body :=
          { errorField := some "Non autorisé"
          , messageField := some "Token manquant ou invalide"
          , codeField := some "UNAUTHORIZED" } }
      , s
      , [ { level := "warn"
          , errMessage := some msg
          , method := some req.method
          , url := some req.url
          , ip := some req.ip } ] ) :=
  rfl

/-- C4: the global error handler replies with the carried status code
(500 when none), logs 5xx at error level with the stack and 4xx at warn
level without one, passes the raw message through in development or for
status below 500, and substitutes the generic message for 500-class
failures outside development. -/
theorem claim4_errorHandler_classification (isDev : Bool) (e : RaisedError) :
    (errorHandler isDev e).1 = e.statusCode.getD 500 ∧
    ((errorHandler isDev e).1 ≥ 500 →
      (errorHandler isDev e).2.2 = { level := "error", stack := e.stack }) ∧
    (400 ≤ (errorHandler isDev e).1 → (errorHandler isDev e).1 < 500 →
      (errorHandler isDev e).2.2 = { level := "warn", stack := none }) ∧
    ((isDev = true ∨ (errorHandler isDev e).1 < 500) →
      (errorHandler isDev e).2.1 = e.message) ∧
    (isDev = false → (errorHandler isDev e).1 ≥ 500 →
      (errorHandler isDev e).2.1 = "Une erreur interne est survenue") := by
  have hfst : (errorHandler isDev e).1 = e.statusCode.getD 500 := rfl
  by_cases h : e.statusCode.getD 500 ≥ 500
  · have h' : ¬ e.statusCode.getD 500 < 500 := Nat.not_lt.mpr h
    cases isDev <;> simp [errorHandler, h, h']
  · have h' : e.statusCode.getD 500 < 500 := Nat.lt_of_not_le h
    cases isDev <;> simp [errorHandler, h, h', Nat.not_le.mpr h']

/-- C4, witnessed at a stackless 503 error outside development mode. -/
theorem claim4_errorHandler_classification_witness :
    (errorHandler false
      { name := "Error", message := "boom", statusCode := some 503, stack := none }).2.1 =
      "Une erreur interne est survenue" :=
  ((claim4_errorHandler_classification false
      { name := "Error", message := "boom", statusCode := some 503, stack := none }).2.2.2.2)
    rfl (by decide)

/-- C5: every unmatched request gets HTTP 404 with body
`error = "Not Found"`, `statusCode = 404`, a timestamp, a message that
contains the requested method and the requested path, and the list of
known top-level routes exactly when the mode is development. -/
theorem claim5_notFound_response (isDev : Bool) (req : Request) (now : String) :
    (notFoundHandler isDev req now).1 = 404 ∧
    (notFoundHandler isDev req now).2.errorField = "Not Found" ∧
    (notFoundHandler isDev req now).2.statusCode = 404 ∧
    (notFoundHandler isDev req now).2.timestamp = now ∧
    (∃ before after : String,
      (notFoundHandler isDev req now).2.messageField = before ++ req.method ++ after) ∧
    (∃ before after : String,
      (notFoundHandler isDev req now).2.messageField = before ++ req.url ++ after) ∧
    ((notFoundHandler isDev req now).2.availableRoutes =
        some ["GET /", "GET /health"] ↔ isDev = true) := by
  refine ⟨rfl, rfl, rfl, rfl, ?_, ?_, ?_⟩
  · refine ⟨"Route ", " " ++ req.url ++ " non trouvée", ?_⟩
    simp [notFoundHandler, notFoundMessage, String.append_assoc]
  · refine ⟨"Route " ++ req.method ++ " ", " non trouvée", ?_⟩
    simp [notFoundHandler, notFoundMessage, String.append_assoc]
  · cases isDev <;> simp [notFoundHandler]

/-- C5, witnessed: the development-mode body of `GET /missing` carries
the route list and the message mentions the method and the path. -/
theorem claim5_notFound_response_witness :
    (notFoundHandler true { ip := "1.2.3.4", method := "GET", url := "/missing" } "t0").2.availableRoutes
      = some ["GET /", "GET /health"] :=
  (claim5_notFound_response true { ip := "1.2.3.4", method := "GET", url := "/missing" } "t0").2.2.2.2.2.2.mpr
    rfl

/-- C6: the rate limiter's client key is the forwarded-for header when
present and non-empty, otherwise the real-ip header when present and
non-empty, otherwise the transport-level peer address. -/
theorem claim6_keyGenerator_precedence (fwd ri : Option String) (ip : String) :
    keyGenerator fwd ri ip =
      (if strTruthy fwd then fwd.getD ""
       else if strTruthy ri then ri.getD "" else ip) := by
  cases fwd with
  | none =>
    cases ri with
    | none => rfl
    | some r => by_cases hr : r = "" <;> simp [keyGenerator, jsOrStr, strTruthy, hr]
  | some f =>
    cases ri with
    | none => by_cases hf : f = "" <;> simp [keyGenerator, jsOrStr, strTruthy, hf]
    | some r =>
      by_cases hf : f = "" <;> by_cases hr : r = "" <;>
        simp [keyGenerator, jsOrStr, strTruthy, hf, hr]

/-- C7: the token-extraction cascade of the security plugin equals the
cascade the claim describes: Authorization `Bearer` remainder first,
then the `authToken` cookie value, then — in development mode only and
with a warning — the `token` query parameter, else no token. -/
theorem claim7_extractToken_precedence (isDev : Bool)
    (authHeader cookieAuthToken queryToken : Option String) :
    extractToken isDev authHeader cookieAuthToken queryToken =
      extractTokenClaim isDev authHeader cookieAuthToken queryToken := by
  have hcq : extractFromCookie isDev cookieAuthToken queryToken =
      (if strTruthy cookieAuthToken then (cookieAuthToken, false)
       else if isDev = true ∧ queryToken.isSome then (queryToken, true)
       else (none, false)) := by
    by_cases hc : strTruthy cookieAuthToken
    · simp [extractFromCookie, hc]
    · cases queryToken with
      | none => cases isDev <;> simp [extractFromCookie, extractFromQuery, hc]
      | some q => cases isDev <;> simp [extractFromCookie, extractFromQuery, hc]
  cases authHeader with
  | none =>
    have hb : (("" : String).startsWith "Bearer ") = false := by decide
    simp [extractToken, extractTokenClaim, hb, hcq]
  | some h =>
    by_cases hb : h.startsWith "Bearer " <;>
      simp [extractToken, extractTokenClaim, hb, hcq]

/-- C8: with a healthy database, each namespaced health probe returns
`healthy` and writes exactly one health record; two immediate probes
both return `healthy` and together add exactly two records. -/
theorem claim8_health_probe_count (db : DbState) (h : db.ok = true) :
    (systemHealthHandler db).1.status = "healthy" ∧
    (systemHealthHandler db).2.healthChecks = db.healthChecks + 1 ∧
    (systemHealthHandler (systemHealthHandler db).2).1.status = "healthy" ∧
    (systemHealthHandler (systemHealthHandler db).2).2.healthChecks = db.healthChecks + 2 := by
  cases db with
  | mk ok n =>
    cases ok
    · simp at h
    · simp [systemHealthHandler]

/-- C8, witnessed at an empty healthy store. -/
theorem claim8_health_probe_count_witness :
    (systemHealthHandler { ok := true, healthChecks := 0 }).1.status = "healthy" ∧
    (systemHealthHandler { ok := true, healthChecks := 0 }).2.healthChecks = 0 + 1 ∧
    (systemHealthHandler (systemHealthHandler { ok := true, healthChecks := 0 }).2).1.status = "healthy" ∧
    (systemHealthHandler (systemHealthHandler { ok := true, healthChecks := 0 }).2).2.healthChecks = 0 + 2 :=
  claim8_health_probe_count { ok := true, healthChecks := 0 } rfl

/-- C9 counterexample: when startup succeeded and `server.close()`
rejects during the signal-driven shutdown (before the drain deadline),
the process exits with status 1, yet neither of the claim's two causes
for status 1 — startup failure or deadline overrun — holds. -/
theorem claim9_exit_code_counterexample :
    ¬ exitCodesAsClaimed true (some ShutdownOutcome.closeFailed) := by
  intro hclaim
  have h1 : (startServerFate true (some ShutdownOutcome.closeFailed)).exitStatus = some 1 := by
    decide
  rcases hclaim.2.mp h1 with h | h
  · exact absurd h (by decide)
  · exact absurd h.2 (by decide)

/-- C9 amended: exit status 0 exactly when shutdown completed
gracefully (closed before the drain deadline after a signal); exit
status 1 exactly when startup failed, the drain deadline was exceeded,
or `server.close()` itself failed during shutdown; a startup failure
never leaves the server accepting traffic. -/
theorem claim9_exit_codes_amended (startupOk : Bool) (shutdown : Option ShutdownOutcome) :
    ((startServerFate startupOk shutdown).exitStatus = some 0 ↔
      (startupOk = true ∧ shutdown = some ShutdownOutcome.closedInTime)) ∧
    ((startServerFate startupOk shutdown).exitStatus = some 1 ↔
      (startupOk = false ∨
        (startupOk = true ∧
          (shutdown = some ShutdownOutcome.deadlineExceeded ∨
           shutdown = some ShutdownOutcome.closeFailed)))) ∧
    (startupOk = false → (startServerFate startupOk shutdown).acceptingTraffic = false) := by
  cases shutdown with
  | none => cases startupOk <;> decide
  | some o => cases o <;> cases startupOk <;> decide

/-- C9 amended, witnessed at a failed startup. -/
theorem claim9_exit_codes_amended_witness :
    (startServerFate false none).acceptingTraffic = false :=
  (claim9_exit_codes_amended false none).2.2 rfl

/-- C10: for any deployment mode that is neither `development` nor
`production` (such as `test`), the security plugin uses the restrictive
production CORS allow-list and the production rate-limit ceiling of
100 requests per minute, yet disables strict-transport-security, and a
missing JWT secret falls back to the development default with only a
warning — no startup failure. -/
theorem claim10_test_mode_mixed_posture (mode : String)
    (hdev : mode ≠ "development") (hprod : mode ≠ "production") :
    corsOrigin mode = CorsOrigin.allowList
      [ "https://logetogo.tg"
      , "https://www.logetogo.tg"
      , "https://admin.logetogo.tg"
      , "https://app.logetogo.tg" ] ∧
    rateLimitMax mode = 100 ∧
    hstsEnabled mode = false ∧
    jwtSecret mode none = Except.ok ("dev-jwt-secret-32-chars-minimum-change", true) := by
  have h1 : isDevMode mode = false := by simp [isDevMode, hdev]
  have h2 : isProdMode mode = false := by simp [isProdMode, hprod]
  refine ⟨?_, ?_, ?_, ?_⟩
  · simp [corsOrigin, h1]
  · simp [rateLimitMax, h1]
  · simp [hstsEnabled, h2]
  · simp [jwtSecret, strTruthy, h2]

/-- C10, witnessed at `NODE_ENV=test`. -/
theorem claim10_test_mode_mixed_posture_witness :
    rateLimitMax "test" = 100 ∧ hstsEnabled "test" = false ∧
    jwtSecret "test" none = Except.ok ("dev-jwt-secret-32-chars-minimum-change", true) := by
  have h := claim10_test_mode_mixed_posture "test" (by decide) (by decide)
  exact ⟨h.2.1, h.2.2.1, h.2.2.2⟩

end LogeTogo
